import Mathlib

/-!
Verification of the credential/transport core of aice-web-next:
`src/lib/mtls.ts` (algorithm detection, lazy credential state, context
JWT signing, hot reload) and `src/lib/graphql/client.ts` (memoized
backend client and request gateway).

Modelling conventions.

* The TypeScript module-level mutable variables (`state` in mtls.ts,
  `client` in client.ts) become explicit state records threaded through
  every operation; an operation returns `Except String α × State`, the
  `Except` carrying a thrown `Error`'s message and the second component
  the module state after the call (JavaScript leaves module variables
  at whatever was last assigned before a throw).
* External collaborators (node's X509 parsing, jose's `importPKCS8`
  and the low-level signature primitive, `process.env`, the file
  system) are fields of a `Config` record, so theorems quantify over
  their behaviour.  `undici.Agent` allocation is modelled by a fresh
  natural-number handle from a counter, and `agent.close()` by
  recording the handle in a `closed` list.
* A JWS compact token is modelled structurally as its protected header
  algorithm, its payload record, and its signature value; the compact
  serialization is a function of exactly these, injective on distinct
  payloads (distinct `exp` numbers give distinct payload JSON), so
  structural (in)equality of `Token` matches byte (in)equality of the
  serialized string.
* `Promise.all([signContextJwt ..., getAgent()])` is modelled by
  running the signer first and the agent lookup second; the spec's
  cooperative single-process scheduling makes each operation atomic
  here, and no claim under verification depends on the benign
  double-build race the spec flags as an open question.
-/

/-- The JWT signing algorithms the module can select
(`type JwtAlgorithm` in mtls.ts). -/
inductive JwtAlgorithm where
  | RS256 | RS384 | RS512 | ES256 | ES384
deriving DecidableEq, Repr

/-- The fields of `x509.publicKey` that `detectAlgorithm` inspects:
`asymmetricKeyType` and the optional `asymmetricKeyDetails`
(`modulusLength` for RSA keys, `namedCurve` for EC keys).  `none`
models an absent (undefined) detail. -/
structure PublicKeyInfo where
  asymmetricKeyType : String
  modulusLength : Option Nat
  namedCurve : Option String
deriving DecidableEq, Repr

/-- The branch structure of `detectAlgorithm` on the parsed public key
(mtls.ts lines 19-36): RSA keys bucket by `modulusLength ?? 0`
(≥ 4096 → RS512, ≥ 3072 → RS384, else RS256); EC keys map
prime256v1 → ES256 and secp384r1 → ES384 and otherwise throw
`Unsupported EC curve: ...`; any other key type throws
`Unsupported key type: ...`. -/
def detectAlgorithmKey (pub : PublicKeyInfo) : Except String JwtAlgorithm :=
  if pub.asymmetricKeyType = "rsa" then
    let bits := pub.modulusLength.getD 0
    if bits ≥ 4096 then .ok .RS512
    else if bits ≥ 3072 then .ok .RS384
    else .ok .RS256
  else if pub.asymmetricKeyType = "ec" then
    match pub.namedCurve with
    | some c =>
      if c = "prime256v1" then .ok .ES256
      else if c = "secp384r1" then .ok .ES384
      else .error ("Unsupported EC curve: " ++ c)
    | none => .error "Unsupported EC curve: undefined"
  else .error ("Unsupported key type: " ++ pub.asymmetricKeyType)

/-- A signed token's payload.  `customer_ids := none` / `iat := none` /
`exp := none` model the named key being absent from the payload object
altogether.  `signContextJwt` builds
`{role, ...(customerIds !== undefined && Set customer_ids)}` and then
`.setExpirationTime("5m")`; it never calls `.setIssuedAt()`. -/
structure Payload where
  role : String
  customer_ids : Option (List Int)
  iat : Option Nat
  exp : Option Nat
deriving DecidableEq, Repr

/-- A JWS compact token, structurally: protected-header algorithm,
payload, and signature value.  The compact string is
`b64(header) ++ "." ++ b64(payload) ++ "." ++ b64(sig)`, a function of
these three components that is injective on payloads, so equality of
`Token` values tracks byte equality of token strings. -/
structure Token where
  alg : JwtAlgorithm
  payload : Payload
  sig : Nat
deriving DecidableEq, Repr

/-- The external collaborators of the two modules, as one environment:
`env` is `process.env`, `fs` maps a path to its contents (`none` =
`readFileSync` throws), `parseCert` is `new X509Certificate(pem)`
exposing the public key fields, `importKey` is jose's `importPKCS8`,
and `signBytes` is the signature primitive applied by
`SignJWT.sign`, given the algorithm, the imported key, the payload and
an entropy value (RSASSA-PKCS1-v1_5 signatures ignore the entropy —
they are deterministic — while ECDSA ones may depend on it). -/
structure Config where
  env : String → Option String
  fs : String → Option String
  parseCert : String → Except String PublicKeyInfo
  importKey : String → JwtAlgorithm → Except String String
  signBytes : JwtAlgorithm → String → Payload → Nat → Nat

/-- The source's exported `detectAlgorithm(certPem)`: parse the PEM
certificate, then branch on its public key. -/
def detectAlgorithm (cfg : Config) (certPem : String) : Except String JwtAlgorithm :=
  match cfg.parseCert certPem with
  | .error e => .error e
  | .ok pub => detectAlgorithmKey pub

/-- Loads `process.env[envVar]` and reads the named file
(`readEnvPath` in mtls.ts).  An undefined or empty variable is falsy
in `if (!filePath)`, so both throw `Missing environment variable`. -/
def readEnvPath (cfg : Config) (envVar : String) : Except String String :=
  match cfg.env envVar with
  | none => .error ("Missing environment variable: " ++ envVar)
  | some p =>
    if p = "" then .error ("Missing environment variable: " ++ envVar)
    else
      match cfg.fs p with
      | some contents => .ok contents
      | none => .error ("ENOENT: no such file " ++ p)

/-- One generation of credential state (`MtlsState` in mtls.ts):
the undici `Agent` handle, the imported signing key, and the detected
algorithm. -/
structure MtlsState where
  agent : Nat
  privateKey : String
  algorithm : JwtAlgorithm
deriving DecidableEq, Repr

/-- The mtls module's runtime: the `state` module variable, the
allocator counter supplying fresh `Agent` handles, and the handles on
which `close()` has been called. -/
structure Runtime where
  state : Option MtlsState
  nextAgent : Nat
  closed : List Nat
deriving DecidableEq, Repr

/-- Builds a fresh generation (`buildState` in mtls.ts): read the three
configured files, detect the algorithm from the certificate, import
the private key, construct the `Agent`.  Any failure aborts the whole
build; nothing is published.  Returns the new state together with the
advanced allocator counter. -/
def buildState (cfg : Config) (nextAgent : Nat) : Except String (MtlsState × Nat) := do
  let cert ← readEnvPath cfg "MTLS_CERT_PATH"
  let key ← readEnvPath cfg "MTLS_KEY_PATH"
  let _ca ← readEnvPath cfg "MTLS_CA_PATH"
  let pub ← cfg.parseCert cert
  let algorithm ← detectAlgorithmKey pub
  let privateKey ← cfg.importKey key algorithm
  pure ({ agent := nextAgent, privateKey := privateKey, algorithm := algorithm }, nextAgent + 1)

/-- The lazy-init read `state ?? (await initialize())` shared by
`getAgent` and `signContextJwt`: return the current generation, or
build and publish one if none exists.  On build failure nothing is
assigned and the error propagates. -/
def ensureState (cfg : Config) (rt : Runtime) : Except String MtlsState × Runtime :=
  match rt.state with
  | some s => (.ok s, rt)
  | none =>
    match buildState cfg rt.nextAgent with
    | .ok (s, n) => (.ok s, { rt with state := some s, nextAgent := n })
    | .error e => (.error e, rt)

/-- The exported `getAgent()`: the current generation's agent handle,
building the generation first if absent. -/
def getAgent (cfg : Config) (rt : Runtime) : Except String Nat × Runtime :=
  match ensureState cfg rt with
  | (.ok s, rt') => (.ok s.agent, rt')
  | (.error e, rt') => (.error e, rt')

/-- The payload `signContextJwt` assembles: `role` as given;
`customer_ids` spread in only when the caller passed a defined value
(an empty list included); `exp` set by `.setExpirationTime("5m")` to
now + 300 seconds; no `iat` (the builder never calls
`.setIssuedAt()`). -/
def mkPayload (role : String) (customerIds : Option (List Int)) (now : Nat) : Payload :=
  { role := role, customer_ids := customerIds, iat := none, exp := some (now + 300) }

/-- The exported `signContextJwt(role, customerIds?)`: obtain the
current generation (lazy init), build the payload, set the protected
header to the generation's algorithm and sign with its key.  `now` is
the epoch second at which jose resolves `"5m"`, `ent` the entropy
consumed by the signature primitive. -/
def signContextJwt (cfg : Config) (rt : Runtime) (role : String)
    (customerIds : Option (List Int)) (now ent : Nat) : Except String Token × Runtime :=
  match ensureState cfg rt with
  | (.ok s, rt') =>
    let p := mkPayload role customerIds now
    (.ok { alg := s.algorithm, payload := p, sig := cfg.signBytes s.algorithm s.privateKey p ent },
     rt')
  | (.error e, rt') => (.error e, rt')

/-- The exported `reload()`: remember the previous generation, build
and publish a new one, then close the previous agent (if any), and
return the new agent handle.  If the build throws, the assignment to
`state` never happens and no close is performed. -/
def reload (cfg : Config) (rt : Runtime) : Except String Nat × Runtime :=
  match buildState cfg rt.nextAgent with
  | .error e => (.error e, rt)
  | .ok (s, n) =>
    match rt.state with
    | some prev =>
      (.ok s.agent, { state := some s, nextAgent := n, closed := prev.agent :: rt.closed })
    | none => (.ok s.agent, { state := some s, nextAgent := n, closed := rt.closed })

/-- Observable state mutations inside one `reload()` call, in program
order. -/
inductive MtlsEvent where
  | publishState (agent : Nat)
  | closeAgent (agent : Nat)
deriving DecidableEq, Repr

/-- The mutation trace of a `reload()` call, in the order the source
performs them: `state = await buildState()` publishes the new
generation first, and only then `if (previous) await
previous.agent.close()` closes the superseded agent. -/
def reloadEvents (cfg : Config) (rt : Runtime) : List MtlsEvent :=
  match buildState cfg rt.nextAgent with
  | .error _ => []
  | .ok (s, _) =>
    match rt.state with
    | some prev => [.publishState s.agent, .closeAgent prev.agent]
    | none => [.publishState s.agent]

/-- Allocator soundness: any published agent handle is below the
counter, so freshly built agents are distinct from it. -/
def wfRuntime (rt : Runtime) : Bool :=
  match rt.state with
  | some s => s.agent < rt.nextAgent
  | none => true

/-- A reader-side call into the mtls module: a `getAgent()` call or a
`signContextJwt(role, customerIds?)` call at a given time with given
entropy. -/
inductive CallOp where
  | agentCall
  | signCall (role : String) (cids : Option (List Int)) (now ent : Nat)

/-- Runs one reader-side call for its state effect. -/
def stepCall (cfg : Config) (rt : Runtime) : CallOp → Runtime
  | .agentCall => (getAgent cfg rt).2
  | .signCall role cids now ent => (signContextJwt cfg rt role cids now ent).2

/-- Runs a sequence of reader-side calls for their state effects. -/
def runCalls (cfg : Config) (rt : Runtime) : List CallOp → Runtime
  | [] => rt
  | op :: ops => runCalls cfg (stepCall cfg rt op) ops

/-- Combined state of both modules: the mtls runtime and the graphql
module's memoized `client` variable.  A `GraphQLClient` is determined
by the endpoint it was constructed with, so the memoized handle is
modelled as that endpoint. -/
structure AppState where
  mtls : Runtime
  client : Option String
deriving DecidableEq, Repr

/-- Evaluating the top level of `graphql/client.ts` under any
environment: the module body only defines functions and runs
`let client = null`; it performs no environment lookup, so loading
succeeds unconditionally with an empty memo. -/
def clientModuleLoad (_cfg : Config) : Except String (Option String) :=
  .ok none

/-- The memo lookup `getClient()`: return the cached client if any;
otherwise read `REVIEW_GRAPHQL_ENDPOINT` (an undefined or empty value
fails with `Missing environment variable: REVIEW_GRAPHQL_ENDPOINT`),
construct a client bound to it and cache it. -/
def getClient (cfg : Config) (client : Option String) :
    Except String String × Option String :=
  match client with
  | some c => (.ok c, some c)
  | none =>
    match cfg.env "REVIEW_GRAPHQL_ENDPOINT" with
    | none => (.error "Missing environment variable: REVIEW_GRAPHQL_ENDPOINT", none)
    | some e =>
      if e = "" then (.error "Missing environment variable: REVIEW_GRAPHQL_ENDPOINT", none)
      else (.ok e, some e)

/-- The outbound HTTPS request `graphqlRequest` is about to issue once
its inputs are assembled: the resolved endpoint, the freshly signed
bearer token, and the mTLS agent injected as the fetch dispatcher.
The network exchange itself is an external collaborator. -/
structure OutboundRequest where
  endpoint : String
  token : Token
  agent : Nat
deriving DecidableEq, Repr

/-- The exported `graphqlRequest(document, variables, context)` up to
the point of issuing the HTTPS request: await
`Promise.all([signContextJwt(role, customerIds), getAgent()])`, then
`getClient()`, then dispatch.  The first failure propagates to the
caller. -/
def graphqlRequest (cfg : Config) (st : AppState) (role : String)
    (cids : Option (List Int)) (now ent : Nat) :
    Except String OutboundRequest × AppState :=
  match signContextJwt cfg st.mtls role cids now ent with
  | (.error e, rt') => (.error e, { st with mtls := rt' })
  | (.ok tok, rt') =>
    match getAgent cfg rt' with
    | (.error e, rt'') => (.error e, { st with mtls := rt'' })
    | (.ok ag, rt'') =>
      match getClient cfg st.client with
      | (.error e, cl) => (.error e, { mtls := rt'', client := cl })
      | (.ok ep, cl) =>
        (.ok { endpoint := ep, token := tok, agent := ag }, { mtls := rt'', client := cl })

/-- The exported `resetClient()`: drop the memoized client handle.  It
touches nothing else. -/
def resetClient (st : AppState) : AppState :=
  { st with client := none }

/-! Concrete fixtures, mirroring the unit tests' `setEnv` setup. -/

/-- Environment in which the three mTLS paths and the backend endpoint
are all configured. -/
def testEnv : String → Option String := fun v =>
  if v = "MTLS_CERT_PATH" then some "/tmp/cert.pem"
  else if v = "MTLS_KEY_PATH" then some "/tmp/key.pem"
  else if v = "MTLS_CA_PATH" then some "/tmp/ca.pem"
  else if v = "REVIEW_GRAPHQL_ENDPOINT" then some "https://review.example.com/graphql"
  else none

/-- File store backing the configured paths. -/
def testFs : String → Option String := fun p =>
  if p = "/tmp/cert.pem" then some "RSA2048-CERT-PEM"
  else if p = "/tmp/key.pem" then some "RSA2048-KEY-PEM"
  else if p = "/tmp/ca.pem" then some "CA-PEM"
  else none

/-- Public key of an RSA-2048 client certificate
(`asymmetricKeyType = "rsa"`, `modulusLength = 2048`). -/
def rsa2048Key : PublicKeyInfo :=
  { asymmetricKeyType := "rsa", modulusLength := some 2048, namedCurve := none }

/-- Concrete configuration holding an RSA-2048 identity.  Its
`signBytes` ignores the entropy argument: this certificate selects
RS256, and an RSASSA-PKCS1-v1_5 signature is a deterministic function
of the key and the signing input. -/
def rsaTestConfig : Config :=
  { env := testEnv
    fs := testFs
    parseCert := fun pem =>
      if pem = "RSA2048-CERT-PEM" then .ok rsa2048Key else .error "invalid PEM"
    importKey := fun key _alg => .ok ("imported:" ++ key)
    signBytes := fun _alg key p _ent => key.length + p.exp.getD 0 }

/-- Fresh module runtime: `state` is null, no agent allocated, nothing
closed. -/
def rt0 : Runtime := { state := none, nextAgent := 0, closed := [] }

/-- The generation `buildState` produces from `rsaTestConfig` with a
fresh allocator. -/
def rsaState0 : MtlsState :=
  { agent := 0, privateKey := "imported:RSA2048-KEY-PEM", algorithm := .RS256 }

/-- Runtime after one successful lazy initialization under
`rsaTestConfig`. -/
def rtWarm : Runtime := { state := some rsaState0, nextAgent := 1, closed := [] }

/-- Environment identical to `testEnv` except that the backend
endpoint is not configured. -/
def noEndpointEnv : String → Option String := fun v =>
  if v = "REVIEW_GRAPHQL_ENDPOINT" then none else testEnv v

/-- Configuration with a working mTLS identity but no backend endpoint
configured. -/
def noEndpointConfig : Config := { rsaTestConfig with env := noEndpointEnv }

/-- Configuration in which no environment variable is set at all, so
every credential build fails at the first `readEnvPath`. -/
def emptyEnvConfig : Config :=
  { env := fun _ => none
    fs := fun _ => none
    parseCert := fun _ => .error "invalid PEM"
    importKey := fun _ _ => .error "bad key"
    signBytes := fun _ _ _ _ => 0 }

/-- Public key of an RSA certificate whose `asymmetricKeyDetails` carry
no `modulusLength`. -/
def rsaBareKey : PublicKeyInfo :=
  { asymmetricKeyType := "rsa", modulusLength := none, namedCurve := none }

/-- Configuration whose certificate parses to an RSA key without
modulus-length details. -/
def rsaBareConfig : Config :=
  { rsaTestConfig with
    parseCert := fun pem =>
      if pem = "RSA2048-CERT-PEM" then .ok rsaBareKey else .error "invalid PEM" }

/-- The generation a second build under `rsaTestConfig` produces
(allocator counter 1). -/
def rsaState1 : MtlsState :=
  { agent := 1, privateKey := "imported:RSA2048-KEY-PEM", algorithm := .RS256 }

/-- The token `signContextJwt` produces from a fresh runtime under
`rsaTestConfig` for role "admin" with no customer ids at issue time
1000. -/
def tokNoIat : Token :=
  { alg := .RS256
    payload := { role := "admin", customer_ids := none, iat := none, exp := some 1300 }
    sig := "imported:RSA2048-KEY-PEM".length + 1300 }

/-- The token `signContextJwt` produces under `rsaTestConfig` for role
"x" with an explicitly empty customer-id list at issue time 1000. -/
def tokEmptyIds : Token :=
  { alg := .RS256
    payload := { role := "x", customer_ids := some [], iat := none, exp := some 1300 }
    sig := "imported:RSA2048-KEY-PEM".length + 1300 }

/-- The token either of two same-second calls (role "admin",
customer ids [1], issue time 1000) produces under `rsaTestConfig`. -/
def tokRepeat : Token :=
  { alg := .RS256
    payload := { role := "admin", customer_ids := some [1], iat := none, exp := some 1300 }
    sig := "imported:RSA2048-KEY-PEM".length + 1300 }

/-- The token the same call produces one second later (issue time
1001). -/
def tokAt1001 : Token :=
  { alg := .RS256
    payload := { role := "admin", customer_ids := some [1], iat := none, exp := some 1301 }
    sig := "imported:RSA2048-KEY-PEM".length + 1301 }

/-! Helper lemmas on the mtls state machine. -/

/-- A successful build takes the allocator counter as the new agent
handle and advances the counter by one. -/
theorem buildState_ok_shape (cfg : Config) (n : Nat) (s : MtlsState) (m : Nat)
    (h : buildState cfg n = .ok (s, m)) : s.agent = n ∧ m = n + 1 := by
  simp only [buildState, bind, Except.bind, pure, Except.pure] at h
  repeat' split at h
  all_goals try contradiction
  simp only [Except.ok.injEq, Prod.mk.injEq] at h
  exact ⟨by rw [← h.1], h.2.symm⟩

/-- When a generation is already published, the lazy-init read returns
it and leaves the module state untouched. -/
theorem ensureState_some (cfg : Config) (rt : Runtime) (s : MtlsState)
    (h : rt.state = some s) : ensureState cfg rt = (.ok s, rt) := by
  simp [ensureState, h]

/-- `getAgent` on a warm runtime returns the published agent handle and
changes nothing. -/
theorem getAgent_some (cfg : Config) (rt : Runtime) (s : MtlsState)
    (h : rt.state = some s) : getAgent cfg rt = (.ok s.agent, rt) := by
  simp [getAgent, ensureState_some cfg rt s h]

/-- `signContextJwt` on a warm runtime signs with the published
generation's algorithm and key and changes nothing. -/
theorem sign_some (cfg : Config) (rt : Runtime) (s : MtlsState) (role : String)
    (cids : Option (List Int)) (now ent : Nat) (h : rt.state = some s) :
    signContextJwt cfg rt role cids now ent =
      (.ok { alg := s.algorithm, payload := mkPayload role cids now,
             sig := cfg.signBytes s.algorithm s.privateKey (mkPayload role cids now) ent },
       rt) := by
  simp [signContextJwt, ensureState_some cfg rt s h]

/-- Reader-side calls do not change a warm runtime. -/
theorem stepCall_stable (cfg : Config) (rt : Runtime) (s : MtlsState)
    (h : rt.state = some s) (op : CallOp) : stepCall cfg rt op = rt := by
  cases op with
  | agentCall => rw [stepCall, getAgent_some cfg rt s h]
  | signCall role cids now ent => rw [stepCall, sign_some cfg rt s role cids now ent h]

/-- A sequence of reader-side calls does not change a warm runtime. -/
theorem runCalls_stable (cfg : Config) (rt : Runtime) (s : MtlsState)
    (h : rt.state = some s) : ∀ ops : List CallOp, runCalls cfg rt ops = rt := by
  intro ops
  induction ops with
  | nil => rfl
  | cons op ops ih => rw [runCalls, stepCall_stable cfg rt s h op]; exact ih

/-- A successful token carries exactly the payload `signContextJwt`
assembles from its arguments and the signing time. -/
theorem sign_ok_payload (cfg : Config) (rt : Runtime) (role : String)
    (cids : Option (List Int)) (now ent : Nat) (tok : Token)
    (h : (signContextJwt cfg rt role cids now ent).1 = .ok tok) :
    tok.payload = mkPayload role cids now := by
  unfold signContextJwt at h
  rcases he : ensureState cfg rt with ⟨r, rt'⟩
  rw [he] at h
  cases r with
  | ok s => simp at h; rw [← h]
  | error e => simp at h

/-- A published generation's agent handle lies below the allocator
counter. -/
theorem wf_state_agent_lt (rt : Runtime) (s : MtlsState) (hwf : wfRuntime rt = true)
    (hst : rt.state = some s) : s.agent < rt.nextAgent := by
  simp [wfRuntime, hst] at hwf
  exact hwf

/-- Shape of a successful `reload` from a published generation: the
new generation is published, the allocator advances, the superseded
agent is recorded closed, and the new agent handle is returned. -/
theorem reload_ok_shape (cfg : Config) (rt : Runtime) (old ns : MtlsState) (n2 : Nat)
    (hst : rt.state = some old) (hb : buildState cfg rt.nextAgent = .ok (ns, n2)) :
    reload cfg rt =
      (.ok ns.agent, { state := some ns, nextAgent := n2, closed := old.agent :: rt.closed }) := by
  simp [reload, hb, hst]

/-- A successful `getAgent` leaves a published generation whose handle
it returned. -/
theorem getAgent_ok_state (cfg : Config) (rt rt₁ : Runtime) (a : Nat)
    (h : getAgent cfg rt = (.ok a, rt₁)) :
    ∃ st : MtlsState, rt₁.state = some st ∧ st.agent = a := by
  unfold getAgent ensureState at h
  cases hs : rt.state with
  | some s =>
    rw [hs] at h
    simp at h
    exact ⟨s, by rw [← h.2]; exact hs, h.1⟩
  | none =>
    rw [hs] at h
    cases hb : buildState cfg rt.nextAgent with
    | ok p =>
      rw [hb] at h
      simp at h
      exact ⟨p.1, by rw [← h.2], h.1⟩
    | error e => rw [hb] at h; simp at h


/-! Claim theorems. -/

/-- C3: `detectAlgorithm` maps every certificate as the spec states.
RSA keys bucket by modulus bit length: at least 4096 bits gives RS512,
3072 to 4095 bits gives RS384, below 3072 gives RS256.  EC prime256v1
(P-256) gives ES256 and secp384r1 (P-384) gives ES384, while any other
EC curve fails with an error naming the curve.  Any non-RSA non-EC key
type fails with an error naming the type. -/
theorem detect_algorithm_complete_cases (cfg : Config) (pem : String) (pub : PublicKeyInfo)
    (h : cfg.parseCert pem = .ok pub) :
    (pub.asymmetricKeyType = "rsa" →
      (4096 ≤ pub.modulusLength.getD 0 → detectAlgorithm cfg pem = .ok .RS512) ∧
      (3072 ≤ pub.modulusLength.getD 0 → pub.modulusLength.getD 0 < 4096 →
        detectAlgorithm cfg pem = .ok .RS384) ∧
      (pub.modulusLength.getD 0 < 3072 → detectAlgorithm cfg pem = .ok .RS256)) ∧
    (pub.asymmetricKeyType = "ec" →
      (pub.namedCurve = some "prime256v1" → detectAlgorithm cfg pem = .ok .ES256) ∧
      (pub.namedCurve = some "secp384r1" → detectAlgorithm cfg pem = .ok .ES384) ∧
      (∀ c, pub.namedCurve = some c → c ≠ "prime256v1" → c ≠ "secp384r1" →
        detectAlgorithm cfg pem = .error ("Unsupported EC curve: " ++ c))) ∧
    (pub.asymmetricKeyType ≠ "rsa" → pub.asymmetricKeyType ≠ "ec" →
      detectAlgorithm cfg pem = .error ("Unsupported key type: " ++ pub.asymmetricKeyType)) := by
  have hd : detectAlgorithm cfg pem = detectAlgorithmKey pub := by
    simp [detectAlgorithm, h]
  refine ⟨?_, ?_, ?_⟩
  · intro hrsa
    refine ⟨?_, ?_, ?_⟩
    · intro hb
      rw [hd]
      simp only [detectAlgorithmKey, hrsa, if_true]
      rw [if_pos hb]
    · intro hb hlt
      rw [hd]
      simp only [detectAlgorithmKey, hrsa, if_true]
      rw [if_neg (by omega), if_pos hb]
    · intro hlt
      rw [hd]
      simp only [detectAlgorithmKey, hrsa, if_true]
      rw [if_neg (by omega), if_neg (by omega)]
  · intro hec
    have hnr : ¬ (pub.asymmetricKeyType = "rsa") := by rw [hec]; decide
    refine ⟨?_, ?_, ?_⟩
    · intro hc
      rw [hd]
      simp [detectAlgorithmKey, hnr, hec, hc]
    · intro hc
      rw [hd]
      simp [detectAlgorithmKey, hnr, hec, hc]
    · intro c hc hne1 hne2
      rw [hd]
      simp [detectAlgorithmKey, hnr, hec, hc, hne1, hne2]
  · intro hnr hne
    rw [hd]
    simp [detectAlgorithmKey, hnr, hne]

/-- Witness for C3 at the RSA-2048 fixture: 2048 is below 3072, so
detection yields RS256. -/
theorem detect_algorithm_complete_cases_witness :
    detectAlgorithm rsaTestConfig "RSA2048-CERT-PEM" = .ok .RS256 :=
  (((detect_algorithm_complete_cases rsaTestConfig "RSA2048-CERT-PEM" rsa2048Key rfl).1
      rfl).2.2) (by decide)

/-- C10: `detectAlgorithm` never fails on a certificate whose public
key type is RSA; when the key's modulus-length details are absent the
modulus is treated as 0 and the result is RS256 rather than an
error. -/
theorem detect_algorithm_rsa_total (cfg : Config) (pem : String) (pub : PublicKeyInfo)
    (h : cfg.parseCert pem = .ok pub) (hrsa : pub.asymmetricKeyType = "rsa") :
    (∃ a, detectAlgorithm cfg pem = .ok a) ∧
    (pub.modulusLength = none → detectAlgorithm cfg pem = .ok .RS256) := by
  have hd : detectAlgorithm cfg pem = detectAlgorithmKey pub := by
    simp [detectAlgorithm, h]
  constructor
  · rw [hd]
    simp only [detectAlgorithmKey, hrsa, if_true]
    by_cases h1 : 4096 ≤ pub.modulusLength.getD 0
    · exact ⟨.RS512, by rw [if_pos h1]⟩
    · by_cases h2 : 3072 ≤ pub.modulusLength.getD 0
      · exact ⟨.RS384, by rw [if_neg h1, if_pos h2]⟩
      · exact ⟨.RS256, by rw [if_neg h1, if_neg h2]⟩
  · intro hm
    rw [hd]
    simp [detectAlgorithmKey, hrsa, hm]

/-- Witness for C10 at an RSA certificate carrying no modulus-length
details. -/
theorem detect_algorithm_rsa_total_witness :
    detectAlgorithm rsaBareConfig "RSA2048-CERT-PEM" = .ok .RS256 :=
  (detect_algorithm_rsa_total rsaBareConfig "RSA2048-CERT-PEM" rsaBareKey rfl rfl).2 rfl

/-- C1 counterexample: at a concrete call (role "admin", issue time
1000, fresh runtime under the RSA-2048 fixture) the signed payload is
exactly `{role := "admin", exp := 1300}` with no `iat` claim at all —
`signContextJwt` sets `.setExpirationTime("5m")` but never calls
`.setIssuedAt()` — so "the payload contains an iat claim equal to the
issue time" is false and `exp - iat` is not defined for any signed
token. -/
theorem sign_no_iat_counterexample :
    (signContextJwt rsaTestConfig rt0 "admin" none 1000 0).1 = .ok tokNoIat ∧
    tokNoIat.payload.iat = none ∧
    tokNoIat.payload.exp = some 1300 := ⟨rfl, rfl, rfl⟩

/-- C1 amended: for every token produced by `signContextJwt`, the
payload contains an `exp` claim equal to the issue time plus 300
seconds, and contains no `iat` claim (the builder never calls
`.setIssuedAt()`), so the token expires 300 seconds after issue but
`exp - iat` is undefined. -/
theorem sign_exp_lifetime (cfg : Config) (rt : Runtime) (role : String)
    (cids : Option (List Int)) (now ent : Nat) (tok : Token)
    (h : (signContextJwt cfg rt role cids now ent).1 = .ok tok) :
    tok.payload.exp = some (now + 300) ∧ tok.payload.iat = none := by
  rw [sign_ok_payload cfg rt role cids now ent tok h]
  exact ⟨rfl, rfl⟩

/-- Witness for the amended C1 at issue time 1000. -/
theorem sign_exp_lifetime_witness :
    tokNoIat.payload.exp = some (1000 + 300) ∧ tokNoIat.payload.iat = none :=
  sign_exp_lifetime rsaTestConfig rt0 "admin" none 1000 0 tokNoIat rfl

/-- C4: for every successful `signContextJwt` call the payload carries
`customer_ids` exactly as the caller supplied it — present with the
caller's sequence (the empty sequence included) precisely when the
caller passed a defined value, and absent when the caller passed
none. -/
theorem sign_customer_ids_verbatim (cfg : Config) (rt : Runtime) (role : String)
    (cids : Option (List Int)) (now ent : Nat) (tok : Token)
    (h : (signContextJwt cfg rt role cids now ent).1 = .ok tok) :
    tok.payload.customer_ids = cids := by
  rw [sign_ok_payload cfg rt role cids now ent tok h]
  rfl

/-- Witness for C4: signing with an explicitly empty list yields a
payload whose `customer_ids` is present and empty. -/
theorem sign_customer_ids_verbatim_witness :
    tokEmptyIds.payload.customer_ids = some [] :=
  sign_customer_ids_verbatim rsaTestConfig rt0 "x" (some []) 1000 0 tokEmptyIds rfl

/-- C2: if building a new credential state fails, the swap does not
happen.  When no state existed yet, `getAgent` and `signContextJwt`
surface the build failure and the module state stays null — the
runtime is returned unchanged, so the next call retries from scratch.
When a state already existed, `reload` propagates the failure and
returns the runtime unchanged: the previously-current generation
(transport, signing key, algorithm) remains published, and the
closed-agents list is untouched, so its agent is not closed. -/
theorem build_failure_no_swap (cfg : Config) (rt : Runtime) (e : String)
    (h : buildState cfg rt.nextAgent = .error e) :
    (rt.state = none →
      getAgent cfg rt = (.error e, rt) ∧
      ∀ role cids now ent, signContextJwt cfg rt role cids now ent = (.error e, rt)) ∧
    (∀ s, rt.state = some s → reload cfg rt = (.error e, rt)) := by
  constructor
  · intro hn
    constructor
    · simp [getAgent, ensureState, hn, h]
    · intro role cids now ent
      simp [signContextJwt, ensureState, hn, h]
  · intro s hs
    simp [reload, h]

/-- Witness for C2: with every environment variable unset, `reload`
from a warm runtime fails with the first missing-variable error and
leaves the runtime — including the published generation and the empty
closed list — exactly as it was. -/
theorem build_failure_no_swap_witness :
    reload emptyEnvConfig rtWarm =
      (.error "Missing environment variable: MTLS_CERT_PATH", rtWarm) :=
  (build_failure_no_swap emptyEnvConfig rtWarm
    "Missing environment variable: MTLS_CERT_PATH" rfl).2 rsaState0 rfl

/-- C5: on every successful `reload()` from a published generation the
mutation trace publishes the new generation strictly before closing
the superseded agent; the returned runtime holds the new generation
with the old agent recorded closed; the new agent handle differs from
the superseded one; and after `reload()` returns, every subsequent
`getAgent` or `signContextJwt` call — after any number of further
reader calls — returns the new agent and signs with the new
generation's algorithm and key, never the superseded transport or
key. -/
theorem reload_publish_then_close (cfg : Config) (rt : Runtime) (old ns : MtlsState)
    (n2 : Nat) (hwf : wfRuntime rt = true) (hst : rt.state = some old)
    (hb : buildState cfg rt.nextAgent = .ok (ns, n2)) :
    reloadEvents cfg rt = [.publishState ns.agent, .closeAgent old.agent] ∧
    reload cfg rt =
      (.ok ns.agent, { state := some ns, nextAgent := n2, closed := old.agent :: rt.closed }) ∧
    ns.agent ≠ old.agent ∧
    (∀ pre : List CallOp,
      (getAgent cfg (runCalls cfg (reload cfg rt).2 pre)).1 = .ok ns.agent ∧
      ∀ role cids now ent, ∃ tok : Token,
        (signContextJwt cfg (runCalls cfg (reload cfg rt).2 pre) role cids now ent).1 =
          .ok tok ∧
        tok.alg = ns.algorithm ∧
        tok.sig = cfg.signBytes ns.algorithm ns.privateKey (mkPayload role cids now) ent) := by
  obtain ⟨hagent, hn2⟩ := buildState_ok_shape cfg rt.nextAgent ns n2 hb
  have hlt : old.agent < rt.nextAgent := wf_state_agent_lt rt old hwf hst
  have hrel := reload_ok_shape cfg rt old ns n2 hst hb
  have hsnd : (reload cfg rt).2 =
      { state := some ns, nextAgent := n2, closed := old.agent :: rt.closed } := by
    rw [hrel]
  have hsome : (reload cfg rt).2.state = some ns := by rw [hsnd]
  have hstable : ∀ pre : List CallOp, runCalls cfg (reload cfg rt).2 pre = (reload cfg rt).2 :=
    runCalls_stable cfg (reload cfg rt).2 ns hsome
  refine ⟨?_, hrel, by omega, ?_⟩
  · simp [reloadEvents, hb, hst]
  · intro pre
    rw [hstable pre]
    constructor
    · rw [getAgent_some cfg (reload cfg rt).2 ns hsome]
    · intro role cids now ent
      rw [sign_some cfg (reload cfg rt).2 ns role cids now ent hsome]
      exact ⟨_, rfl, rfl, rfl⟩

/-- Witness for C5 at the RSA-2048 fixture: reloading the warm runtime
publishes agent 1 before closing agent 0, and the handles differ. -/
theorem reload_publish_then_close_witness :
    reloadEvents rsaTestConfig rtWarm =
      [.publishState rsaState1.agent, .closeAgent rsaState0.agent] ∧
    rsaState1.agent ≠ rsaState0.agent := by
  have h := reload_publish_then_close rsaTestConfig rtWarm rsaState0 rsaState1 2 rfl rfl rfl
  exact ⟨h.1, h.2.2.1⟩

/-- C6: `getAgent` returns the identical transport handle across all
repeated calls until a reload occurs — any successful `getAgent`
leaves a runtime from which every further `getAgent`, after any
sequence of reader calls, returns the same handle — and after a
successful `reload()` from a published generation, `getAgent`
consistently returns the handle `reload()` returned, which differs
from the previous one. -/
theorem agent_handle_stability (cfg : Config) (rt : Runtime) :
    (∀ a rt₁, getAgent cfg rt = (.ok a, rt₁) →
      ∀ ops : List CallOp, (getAgent cfg (runCalls cfg rt₁ ops)).1 = .ok a) ∧
    (∀ s ns n2, wfRuntime rt = true → rt.state = some s →
      buildState cfg rt.nextAgent = .ok (ns, n2) →
      (reload cfg rt).1 = .ok ns.agent ∧
      ns.agent ≠ s.agent ∧
      ∀ ops : List CallOp,
        (getAgent cfg (runCalls cfg (reload cfg rt).2 ops)).1 = .ok ns.agent) := by
  constructor
  · intro a rt₁ h ops
    obtain ⟨st, hst, hagent⟩ := getAgent_ok_state cfg rt rt₁ a h
    rw [runCalls_stable cfg rt₁ st hst ops, getAgent_some cfg rt₁ st hst, hagent]
  · intro s ns n2 hwf hst hb
    obtain ⟨hagent, hn2⟩ := buildState_ok_shape cfg rt.nextAgent ns n2 hb
    have hlt : s.agent < rt.nextAgent := wf_state_agent_lt rt s hwf hst
    have hrel := reload_ok_shape cfg rt s ns n2 hst hb
    have hsome : (reload cfg rt).2.state = some ns := by rw [hrel]
    refine ⟨by rw [hrel], by omega, ?_⟩
    intro ops
    rw [runCalls_stable cfg (reload cfg rt).2 ns hsome ops,
      getAgent_some cfg (reload cfg rt).2 ns hsome]

/-- Witness for C6: from the warm runtime, `getAgent` keeps returning
handle 0 after any further call, and a reload hands out handle 1. -/
theorem agent_handle_stability_witness :
    (getAgent rsaTestConfig (runCalls rsaTestConfig rtWarm [CallOp.agentCall])).1 =
      .ok rsaState0.agent ∧
    (reload rsaTestConfig rtWarm).1 = .ok rsaState1.agent ∧
    rsaState1.agent ≠ rsaState0.agent := by
  have h := agent_handle_stability rsaTestConfig rtWarm
  have h1 := h.1 rsaState0.agent rtWarm rfl [CallOp.agentCall]
  have h2 := h.2 rsaState0 rsaState1 2 rfl rfl rfl
  exact ⟨h1, h2.1, h2.2.1⟩

/-- C7 counterexample: two consecutive `signContextJwt` calls with
identical arguments, both resolving the `"5m"` lifetime within the
same epoch second under the RSA-2048 identity, produce the same token
even with different signature entropy: the payloads coincide (no `iat`
or nonce claim distinguishes them, and `exp` has one-second
granularity) and an RSASSA-PKCS1-v1_5 signature is a deterministic
function of key and signing input — refuting "two calls with identical
arguments never produce byte-identical tokens". -/
theorem sign_identical_tokens_counterexample :
    (signContextJwt rsaTestConfig rt0 "admin" (some [1]) 1000 0).1 = .ok tokRepeat ∧
    (signContextJwt rsaTestConfig
        (signContextJwt rsaTestConfig rt0 "admin" (some [1]) 1000 0).2
        "admin" (some [1]) 1000 1).1 = .ok tokRepeat := ⟨rfl, rfl⟩

/-- C7 amended: two `signContextJwt` calls with identical role and
customer-id arguments whose issue times differ produce different
tokens, because their `exp` claims differ; only calls falling in the
same epoch second can coincide. -/
theorem sign_distinct_times_distinct_tokens (cfg : Config) (rt : Runtime)
    (role : String) (cids : Option (List Int)) (now1 now2 e1 e2 : Nat) (t1 t2 : Token)
    (hne : now1 ≠ now2)
    (h1 : (signContextJwt cfg rt role cids now1 e1).1 = .ok t1)
    (h2 : (signContextJwt cfg (signContextJwt cfg rt role cids now1 e1).2
            role cids now2 e2).1 = .ok t2) :
    t1 ≠ t2 := by
  have p1 := sign_ok_payload cfg rt role cids now1 e1 t1 h1
  have p2 := sign_ok_payload cfg (signContextJwt cfg rt role cids now1 e1).2
    role cids now2 e2 t2 h2
  intro hEq
  rw [hEq, p2] at p1
  have hexp := congrArg Payload.exp p1
  simp [mkPayload] at hexp
  omega

/-- Witness for the amended C7: the same call at issue times 1000 and
1001 yields distinct tokens. -/
theorem sign_distinct_times_distinct_tokens_witness : tokRepeat ≠ tokAt1001 :=
  sign_distinct_times_distinct_tokens rsaTestConfig rt0 "admin" (some [1]) 1000 1001 0 0
    tokRepeat tokAt1001 (by decide) rfl rfl

/-- C8: when `REVIEW_GRAPHQL_ENDPOINT` is not configured,
`graphqlRequest` fails at the send call with the missing-endpoint
error (given a ready credential state and an empty client memo), while
loading the module alone never raises it: under any configuration the
module body only initializes the memo to null. -/
theorem endpoint_missing_fails_at_call (cfg : Config) (st : AppState) (s : MtlsState)
    (role : String) (cids : Option (List Int)) (now ent : Nat)
    (hcl : st.client = none)
    (hep : cfg.env "REVIEW_GRAPHQL_ENDPOINT" = none)
    (hst : st.mtls.state = some s) :
    (∀ cfg' : Config, clientModuleLoad cfg' = .ok none) ∧
    (graphqlRequest cfg st role cids now ent).1 =
      .error "Missing environment variable: REVIEW_GRAPHQL_ENDPOINT" := by
  refine ⟨fun _ => rfl, ?_⟩
  simp [graphqlRequest, sign_some cfg st.mtls s role cids now ent hst,
    getAgent_some cfg st.mtls s hst, getClient, hcl, hep]

/-- Witness for C8 at a configuration with a working mTLS identity and
no endpoint. -/
theorem endpoint_missing_fails_at_call_witness :
    (graphqlRequest noEndpointConfig { mtls := rtWarm, client := none } "admin" none 1000 0).1 =
      .error "Missing environment variable: REVIEW_GRAPHQL_ENDPOINT" :=
  (endpoint_missing_fails_at_call noEndpointConfig { mtls := rtWarm, client := none }
    rsaState0 "admin" none 1000 0 rfl rfl rfl).2

/-- C9: `resetClient` drops only the memoized backend client — the
credential runtime (transport, signing key, algorithm) is returned
unchanged — and the next `graphqlRequest` re-resolves the endpoint
from the current configuration. -/
theorem reset_client_frame (cfg : Config) (st : AppState) (s : MtlsState) (e : String)
    (hst : st.mtls.state = some s)
    (hep : cfg.env "REVIEW_GRAPHQL_ENDPOINT" = some e) (hne : e ≠ "") :
    (resetClient st).client = none ∧
    (resetClient st).mtls = st.mtls ∧
    ∀ role cids now ent, ∃ r : OutboundRequest,
      (graphqlRequest cfg (resetClient st) role cids now ent).1 = .ok r ∧
      r.endpoint = e := by
  refine ⟨rfl, rfl, ?_⟩
  intro role cids now ent
  refine ⟨{ endpoint := e,
            token := { alg := s.algorithm, payload := mkPayload role cids now,
                       sig := cfg.signBytes s.algorithm s.privateKey
                         (mkPayload role cids now) ent },
            agent := s.agent }, ?_, rfl⟩
  simp [graphqlRequest, resetClient, sign_some cfg st.mtls s role cids now ent hst,
    getAgent_some cfg st.mtls s hst, getClient, hep, hne]

/-- Witness for C9: resetting a state whose memo is bound to an old
endpoint empties the memo and leaves the credential runtime intact;
the next request re-resolves to the currently configured endpoint. -/
theorem reset_client_frame_witness :
    (resetClient { mtls := rtWarm, client := some "https://old.example.com" }).client = none ∧
    (resetClient { mtls := rtWarm, client := some "https://old.example.com" }).mtls = rtWarm := by
  have h := reset_client_frame rsaTestConfig
    { mtls := rtWarm, client := some "https://old.example.com" } rsaState0
    "https://review.example.com/graphql" rfl rfl (by decide)
  exact ⟨h.1, h.2.1⟩
